import Mathlib

/-!
# Verification of the GeoAssistant repository

Shallow embedding, in Lean 4, of the parts of the GeoAssistant code base that the
checked claims are about:

* the analysis-plan validator `_GISAnalysis._fill_in_source_tables` and the
  step classes (`geo_assistant/agent/analysis.py`, `geo_assistant/agent/_steps.py`,
  `geo_assistant/agent/analysis/_steps.py`);
* the cleanup stage of `GeoAgent.run_analysis` (`geo_assistant/agent/_agent.py`);
* the handler filter `GeoFilter` (`geo_assistant/handlers/_filter.py`);
* the map-state handler `PlotlyMapHandler` (`geo_assistant/handlers/_map_handler.py`);
* the document store (`geo_assistant/doc_stores/_base.py` and the two concrete
  stores), including a model of the CPython string hash used for document ids;
* the table registry (`geo_assistant/table_registry.py`).

Python dictionaries are modelled as insertion-ordered association lists, Python
exceptions as `Except`-style error results, and Python `Optional` values as
`Option`.  Machine-level hashing is modelled over `Nat` with explicit masks.
-/

namespace GeoAssistant

/-! ## Python-level helpers -/

/-- Python list indexing `l[i]`: a nonnegative index must be strictly below the
length, a negative index counts from the end; any other index raises
`IndexError`, modelled as `none`. -/
def pyIndex {α : Type} (l : List α) (i : Int) : Option α :=
  if 0 ≤ i then l.get? i.toNat
  else if 0 ≤ i + l.length then l.get? (i + l.length).toNat
  else none

/-- Python truthiness of an `Optional[int]` value: `None` and `0` are falsy,
every other integer is truthy.  This is the test performed by
`if value.output_table_idx:` in `_fill_in_source_tables`. -/
def truthyOptInt : Option Int → Bool
  | none => false
  | some i => i != 0

/-- Python truthiness of a list: the empty list is falsy. -/
def truthyList {α : Type} : List α → Bool
  | [] => false
  | _ :: _ => true

/-- Python truthiness of an `Optional[list]` value: `None` and the empty list
are falsy. -/
def truthyOptList {α : Type} : Option (List α) → Bool
  | none => false
  | some l => !l.isEmpty

/-- Whether an `Except` computation finished without an exception. -/
def is_ok {ε α : Type} : Except ε α → Bool
  | .ok _ => true
  | .error _ => false

/-- Mapping a fallible operation over a list, the first exception
propagating — the behaviour of a Python `for` loop whose body may raise. -/
def mapE {ε α β : Type} (f : α → Except ε β) : List α → Except ε (List β)
  | [] => .ok []
  | a :: l =>
      match f a with
      | .error e => .error e
      | .ok b =>
          match mapE f l with
          | .error e => .error e
          | .ok bs => .ok (b :: bs)

/-- Exceptions raised by the modelled Python code. -/
inductive PyErr
  | indexError
  | attributeError
  | keyError
  deriving DecidableEq

/-! ## Insertion-ordered dictionaries (Python `dict`)

Assignment to an existing key replaces the value in place (keeping the
insertion position); assignment to a fresh key appends. -/

/-- `d[k] = v` on a Python dict. -/
def dict_set {β : Type} (d : List (String × β)) (k : String) (v : β) :
    List (String × β) :=
  if d.any (fun kv => kv.1 == k) then
    d.map (fun kv => if kv.1 == k then (k, v) else kv)
  else d ++ [(k, v)]

/-- `k in d` on a Python dict. -/
def dict_mem {β : Type} (d : List (String × β)) (k : String) : Bool :=
  d.any (fun kv => kv.1 == k)

/-- Removal of a key from a Python dict (the caller checks presence). -/
def dict_erase {β : Type} (d : List (String × β)) (k : String) :
    List (String × β) :=
  d.filter (fun kv => kv.1 != k)

/-- `d.get(k)` on a Python dict, as an `Option`. -/
def dict_find {β : Type} (d : List (String × β)) (k : String) : Option β :=
  (d.find? (fun kv => kv.1 == k)).map (fun kv => kv.2)

/-! ## Analysis plans: `_fill_in_source_tables`
(`geo_assistant/agent/analysis.py`, lines 89-104)

A `_SourceTable` value carries an optional index into the outputs of the plan
and an optional table name (after schema specialisation, an enum member whose
`.value` is the name). -/

/-- `_SourceTable` from `geo_assistant/agent/_steps.py`. -/
structure SourceTable where
  output_table_idx : Option Int
  source_table : Option String
  deriving DecidableEq

/-- An analysis step as seen by the validator: SQL steps (`_SQLStep`
subclasses) carry an `output_table`; reporting steps do not.  Each step lists
the values of its `_SourceTable`-annotated fields, in field order. -/
inductive PlanStep
  | sql (output_table : String) (sources : List SourceTable)
  | reporting (sources : List SourceTable)
  deriving DecidableEq

/-- A step after validation, where every `_SourceTable` field has been
overwritten with a qualified `{schema}.{table}` string. -/
inductive ResolvedStep
  | sql (output_table : String) (sources : List String)
  | reporting (sources : List String)
  deriving DecidableEq

/-- The `_SourceTable`-annotated fields of a step. -/
def step_sources : PlanStep → List SourceTable
  | .sql _ srcs => srcs
  | .reporting srcs => srcs

/-- `_GISAnalysis.output_tables`: the `output_table` of every SQL step of the
whole plan, in plan order. -/
def output_tables (steps : List PlanStep) : List String :=
  steps.filterMap fun s =>
    match s with
    | .sql t _ => some t
    | .reporting _ => none

/-- The body of the loop of `_fill_in_source_tables` for one `_SourceTable`
value: when `output_table_idx` is truthy (not `None` and not `0`) the value
becomes `{analysis_name}.{output_tables[idx]}` (an out-of-range index raises
`IndexError`); otherwise it becomes `{base_schema}.{source_table.value}`
(a `None` `source_table` raises `AttributeError`). -/
def resolve_source (analysis_name base_schema : String) (outputs : List String)
    (v : SourceTable) : Except PyErr String :=
  if truthyOptInt v.output_table_idx then
    match pyIndex outputs (v.output_table_idx.getD 0) with
    | some t => .ok (analysis_name ++ "." ++ t)
    | none => .error .indexError
  else
    match v.source_table with
    | some t => .ok (base_schema ++ "." ++ t)
    | none => .error .attributeError

/-- Resolution of all `_SourceTable` fields of one step. -/
def resolve_step (analysis_name base_schema : String) (outputs : List String) :
    PlanStep → Except PyErr ResolvedStep
  | .sql t srcs =>
      match mapE (resolve_source analysis_name base_schema outputs) srcs with
      | .error e => .error e
      | .ok rs => .ok (.sql t rs)
  | .reporting srcs =>
      match mapE (resolve_source analysis_name base_schema outputs) srcs with
      | .error e => .error e
      | .ok rs => .ok (.reporting rs)

/-- `_GISAnalysis._fill_in_source_tables` (run as a pydantic `after`-mode model
validator): every `_SourceTable` field of every step is rewritten to a
qualified name; the first exception aborts validation and the plan is
rejected. -/
def fill_in_source_tables (analysis_name base_schema : String)
    (steps : List PlanStep) : Except PyErr (List ResolvedStep) :=
  mapE (resolve_step analysis_name base_schema (output_tables steps)) steps

/-- The condition for one `_SourceTable` value to resolve without an
exception. -/
def source_ok (outputs : List String) (v : SourceTable) : Bool :=
  if truthyOptInt v.output_table_idx then
    (pyIndex outputs (v.output_table_idx.getD 0)).isSome
  else v.source_table.isSome

/-! ## Analysis execution and cleanup
(`_GISAnalysis.execute`, `geo_assistant/agent/analysis.py` lines 106-135, and
the `try/finally` of `GeoAgent.run_analysis`, `geo_assistant/agent/_agent.py`
lines 352-385)

Database success or failure of a SQL step is an oracle recorded on the step. -/

/-- An executed analysis step: SQL steps create their `output_table` (and may
fail in the database); `SaveTable` and `PlotlyMapLayer` reporting steps carry
the table they reference. -/
inductive A3Step
  | sqlStep (output_table : String) (fails : Bool)
  | saveTable (source_table : String)
  | plotLayer (source_table : String)
  deriving DecidableEq

/-- `output_tables` of the executed plan (every SQL step of the plan). -/
def a3_output_tables (steps : List A3Step) : List String :=
  steps.filterMap fun s =>
    match s with
    | .sqlStep t _ => some t
    | .saveTable _ => none
    | .plotLayer _ => none

/-- `_GISAnalysis.execute`: steps run in declared order; each SQL step creates
its output table; the first failing SQL step aborts the run (the raised
`AnalysisSQLStepFailed` propagates).  Returns the tables created so far and
whether the run succeeded. -/
def execute_created : List A3Step → List String × Bool
  | [] => ([], true)
  | .sqlStep t fails :: rest =>
      if fails then ([], false)
      else
        let r := execute_created rest
        (t :: r.1, r.2)
  | .saveTable _ :: rest => execute_created rest
  | .plotLayer _ :: rest => execute_created rest

/-- Modelled from the spec: `_GISAnalysis._final_tables` is defined in
`geo_assistant/agent/analysis/_analysis.py`, which is not under `src/` (only
its callers are).  Spec section 4.4 defines the final-tables set as the
outputs of `SaveTable` steps united with the outputs of steps fed into
`PlotlyMapLayer` steps. -/
def final_tables (steps : List A3Step) : List String :=
  steps.filterMap fun s =>
    match s with
    | .sqlStep _ _ => none
    | .saveTable t => some t
    | .plotLayer t => some t

/-- The `finally` stage of `GeoAgent.run_analysis`: when the plan has more
than one output table, every table in `analysis._final_tables` is looked up in
the registry and dropped; otherwise nothing is dropped.  Returns the tables
created by the run that survive the cleanup. -/
def run_analysis_cleanup (steps : List A3Step) : List String :=
  let created := (execute_created steps).1
  if 1 < (a3_output_tables steps).length then
    created.filter (fun t => !((final_tables steps).contains t))
  else created

/-! ## Smart query (`DocumentStore.smart_query`,
`geo_assistant/doc_stores/_base.py` lines 104-123)

The LLM term expansion and the embedding-based `query` are external calls;
they are abstracted as the term list and a function from term to result list.
A result row is a metadata dict; the union loop keys on its `name` entry. -/

/-- A document-store query result row, keyed by its `name` metadata entry. -/
structure Doc where
  name : String
  payload : String
  deriving DecidableEq

/-- One iteration of the inner loop of `smart_query`: a result row is appended
only when no row with the same name has been collected yet. -/
def smart_union_step (total : List Doc) (r : Doc) : List Doc :=
  if (total.map Doc.name).contains r.name then total else total ++ [r]

/-- `DocumentStore.smart_query` after the LLM expansion: `query` runs once per
term, in term order, and the per-term result lists are folded through
`smart_union_step`. -/
def smart_query (query_results : String → List Doc) (terms : List String) :
    List Doc :=
  terms.foldl (fun total term => (query_results term).foldl smart_union_step total) []

/-- Specification-side description of a first-seen union: keep each row whose
name has not occurred earlier in the list, in order. -/
def first_occurrences : List Doc → List Doc
  | [] => []
  | d :: ds => d :: first_occurrences (ds.filter (fun e => e.name != d.name))
termination_by l => l.length
decreasing_by
  exact Nat.lt_succ_of_le (List.length_filter_le _ _)

/-! ## Buffer step validation
(`_BufferStep`, `geo_assistant/agent/analysis/_steps.py` lines 311-322)

The pydantic model declares `buffer_distance: float` with no bound and
`buffer_unit` as a two-value literal; floats are modelled as rationals.  The
dynamic table enum is abstracted as the table name string. -/

/-- A constructed `_BufferStep`. -/
structure BufferStep where
  from_table : String
  buffer_distance : Rat
  buffer_unit : String
  deriving DecidableEq

/-- Pydantic validation of `_BufferStep`: the unit must be one of the two
literal values; the distance is accepted unconditionally. -/
def validate_buffer_step (from_table : String) (buffer_distance : Rat)
    (buffer_unit : String) : Except String BufferStep :=
  if buffer_unit == "meters" || buffer_unit == "kilometers" then
    .ok { from_table := from_table, buffer_distance := buffer_distance,
          buffer_unit := buffer_unit }
  else .error "validation error"

/-! ## Handler filters (`GeoFilter`, `geo_assistant/handlers/_filter.py`)

A filter value is a string, a number (integers suffice for the claims) or a
boolean.  The single-quote character is built from its code point so that the
rendered literals can be written without quote characters in this file. -/

/-- A Python value carried by a handler filter. -/
inductive PyValue
  | str (s : String)
  | int (n : Int)
  | bool (b : Bool)
  deriving DecidableEq

/-- The closed operator enum of `GeoFilter.op`. -/
inductive FilterOp
  | equal
  | greaterThan
  | lessThan
  | greaterThanOrEqual
  | lessThanOrEqual
  | notEqual
  | contains
  deriving DecidableEq

/-- `GeoFilter` from `geo_assistant/handlers/_filter.py`. -/
structure GeoFilter where
  field : String
  value : PyValue
  op : FilterOp
  deriving DecidableEq

/-- The `op_mapping` dict of `GeoFilter._to_cql`. -/
def cql_op_mapping : FilterOp → String
  | .equal => "="
  | .greaterThan => ">"
  | .lessThan => "<"
  | .greaterThanOrEqual => ">="
  | .lessThanOrEqual => "<="
  | .notEqual => "<>"
  | .contains => "LIKE"

/-- The `op_mapping` dict of `GeoFilter._to_sql`. -/
def sql_op_mapping : FilterOp → String
  | .equal => "="
  | .greaterThan => ">"
  | .lessThan => "<"
  | .greaterThanOrEqual => ">="
  | .lessThanOrEqual => "<="
  | .notEqual => "!="
  | .contains => "~"

/-- The single-quote character (code point 39). -/
def sq : Char := Char.ofNat 39

/-- The single-quote character as a string. -/
def sqStr : String := sq.toString

/-- Doubling of internal single quotes, the escaping applied to string
literals by both renderers. -/
def escape_quotes (s : String) : String := s.replace sqStr (sqStr ++ sqStr)

/-- Python `str(value)` for the values a filter can carry, as interpolated by
the f-string of the `contains` branch. -/
def py_str_of : PyValue → String
  | .str s => s
  | .int n => toString n
  | .bool b => if b then "True" else "False"

/-- Literal formatting of `_to_cql`: strings are quoted with internal quotes
doubled, booleans render lowercase, other values via `str`. -/
def cql_literal : PyValue → String
  | .str s => sqStr ++ escape_quotes s ++ sqStr
  | .bool b => if b then "true" else "false"
  | .int n => toString n

/-- Literal formatting of `_to_sql`: identical to the CQL formatting except
that booleans render uppercase. -/
def sql_literal : PyValue → String
  | .str s => sqStr ++ escape_quotes s ++ sqStr
  | .bool b => if b then "TRUE" else "FALSE"
  | .int n => toString n

/-- The value `_to_cql` formats: for `contains` the raw value is wrapped in
percent wildcards and becomes a string; otherwise the value is unchanged. -/
def cql_value (f : GeoFilter) : PyValue :=
  if f.op = .contains then .str ("%" ++ py_str_of f.value ++ "%") else f.value

/-- The raw CQL expression of `_to_cql`, before URL encoding. -/
def to_cql_expr (f : GeoFilter) : String :=
  f.field ++ " " ++ cql_op_mapping f.op ++ " " ++ cql_literal (cql_value f)

/-- Upper-case hexadecimal digit for a value below 16. -/
def hexChar (n : Nat) : Char :=
  if n < 10 then Char.ofNat (48 + n) else Char.ofNat (55 + n)

/-- The UTF-8 bytes of one code point. -/
def utf8_bytes_char (c : Char) : List Nat :=
  let n := c.toNat
  if n < 128 then [n]
  else if n < 2048 then [192 + n / 64, 128 + n % 64]
  else if n < 65536 then [224 + n / 4096, 128 + (n / 64) % 64, 128 + n % 64]
  else [240 + n / 262144, 128 + (n / 4096) % 64, 128 + (n / 64) % 64, 128 + n % 64]

/-- Characters `urllib.parse.quote` never encodes: ASCII letters, digits, and
underscore, dot, hyphen, tilde. -/
def quote_safe (c : Char) : Bool :=
  (65 ≤ c.toNat && c.toNat ≤ 90) || (97 ≤ c.toNat && c.toNat ≤ 122) ||
  (48 ≤ c.toNat && c.toNat ≤ 57) ||
  c.toNat == 95 || c.toNat == 46 || c.toNat == 45 || c.toNat == 126

/-- Percent-encoding of one byte. -/
def percent_encode_byte (b : Nat) : String :=
  "%" ++ (hexChar (b / 16)).toString ++ (hexChar (b % 16)).toString

/-- `urllib.parse.quote(expr, safe="")`. -/
def urlQuote (s : String) : String :=
  String.join (s.toList.map fun c =>
    if quote_safe c then c.toString
    else String.join ((utf8_bytes_char c).map percent_encode_byte))

/-- `GeoFilter._to_cql`: the raw expression, URL-encoded. -/
def to_cql (f : GeoFilter) : String := urlQuote (to_cql_expr f)

/-- `GeoFilter._to_sql`: the double-quoted field, the SQL operator, and the
literal rendering of the raw value. -/
def to_sql (f : GeoFilter) : String :=
  "\"" ++ f.field ++ "\" " ++ sql_op_mapping f.op ++ " " ++ sql_literal f.value

/-! ### Predicate semantics

`op_denotes` gives each rendered operator token its PostgreSQL meaning on a
row value.  `LIKE` patterns treat the percent sign (code 37) as any sequence
and the underscore (code 95) as any single character.  The `~` operator is a
POSIX regular-expression search; the model covers patterns whose characters
are literals or the dot (code 46, any single character), which includes every
pattern these theorems evaluate. -/

/-- SQL `LIKE` matching, on fuel (the fuel is larger than the recursion depth
whenever it is at least `pattern.length + text.length + 1`). -/
def like_match_fuel : Nat → List Char → List Char → Bool
  | 0, _, _ => false
  | _ + 1, [], [] => true
  | _ + 1, [], _ :: _ => false
  | fuel + 1, p :: ps, t =>
      if p.toNat == 37 then
        like_match_fuel fuel ps t ||
          (match t with
           | [] => false
           | _ :: ts => like_match_fuel fuel (p :: ps) ts)
      else
        match t with
        | [] => false
        | c :: ts => (p.toNat == 95 || p == c) && like_match_fuel fuel ps ts

/-- SQL `LIKE` matching of a whole text against a pattern. -/
def like_match (pattern text : List Char) : Bool :=
  like_match_fuel (pattern.length + text.length + 1) pattern text

/-- Anchored matching of a literal-or-dot POSIX pattern at the head of the
text; an exhausted pattern matches. -/
def re_match_here : List Char → List Char → Bool
  | [], _ => true
  | _ :: _, [] => false
  | p :: ps, c :: ts => (p.toNat == 46 || p == c) && re_match_here ps ts

/-- Unanchored POSIX search (`~` succeeds when the pattern matches anywhere in
the text). -/
def re_search (p : List Char) : List Char → Bool
  | [] => re_match_here p []
  | c :: ts => re_match_here p (c :: ts) || re_search p ts

/-- Comparison of two row values of the same type (mismatched types never
compare). -/
def py_compare : PyValue → PyValue → Option Ordering
  | .str a, .str b => some (compare a b)
  | .int a, .int b => some (compare a b)
  | .bool a, .bool b => some (compare a b)
  | _, _ => none

/-- The predicate denoted by an operator token applied to a row value and a
filter value. -/
def op_denotes (op : String) (row filt : PyValue) : Bool :=
  if op == "=" then decide (row = filt)
  else if op == "<>" || op == "!=" then decide (row ≠ filt)
  else if op == ">" then py_compare row filt == some .gt
  else if op == "<" then py_compare row filt == some .lt
  else if op == ">=" then
    py_compare row filt == some .gt || py_compare row filt == some .eq
  else if op == "<=" then
    py_compare row filt == some .lt || py_compare row filt == some .eq
  else if op == "~" then
    match row, filt with
    | .str r, .str p => re_search p.toList r.toList
    | _, _ => false
  else if op == "LIKE" then
    match row, filt with
    | .str r, .str p => like_match p.toList r.toList
    | _, _ => false
  else false

/-- The predicate over rows denoted by the SQL rendering of a filter. -/
def sql_denotes (f : GeoFilter) (row : PyValue) : Bool :=
  op_denotes (sql_op_mapping f.op) row f.value

/-- The predicate over rows denoted by the attribute-query rendering of a
filter (the URL encoding is a bijective transport and does not change the
denoted predicate). -/
def cql_denotes (f : GeoFilter) (row : PyValue) : Bool :=
  op_denotes (cql_op_mapping f.op) row (cql_value f)

/-! ## Map state (`PlotlyMapHandler`,
`geo_assistant/handlers/_map_handler.py` lines 63-111)

A table descriptor restricted to the fields the claims touch (the float
bounding box and the detail URL play no role here). -/

/-- `Table` from `geo_assistant/table_registry.py` (bounds omitted). -/
structure Table where
  name : String
  schema : String
  columns : List String
  tile_url : String
  deriving DecidableEq

/-- One entry of `PlotlyMapHandler.map_layers`. -/
structure MapLayerSpec where
  source : String
  sourcelayer : String
  layer_type : String
  color : String
  deriving DecidableEq

/-- The mutable map state: the `map_layers` dict and the `_layer_filters`
dict (whose values keep the `filters` argument as passed, possibly `None`). -/
structure MapState where
  map_layers : List (String × MapLayerSpec)
  layer_filters : List (String × Option (List GeoFilter))
  deriving DecidableEq

/-- The layer dict composed by `_add_map_layer`: the source URL carries the
URL-encoded conjunction of the filters when the filter list is truthy. -/
def compose_layer (table : Table) (color : String)
    (filters : Option (List GeoFilter)) (style : String) : MapLayerSpec :=
  { source :=
      if truthyOptList filters then
        table.tile_url ++ "?filter=" ++
          String.intercalate "%20AND%20" ((filters.getD []).map to_cql)
      else table.tile_url,
    sourcelayer := table.schema ++ "." ++ table.name,
    layer_type := style, color := color }

/-- `PlotlyMapHandler._add_map_layer`: the composed layer is assigned into
`map_layers` and the filter list into `_layer_filters`; assignment replaces an
existing id in place.  Returns the new state and the tool response string. -/
def add_map_layer (st : MapState) (table : Table) (layer_id color : String)
    (filters : Option (List GeoFilter)) (style : String) : MapState × String :=
  ({ map_layers := dict_set st.map_layers layer_id (compose_layer table color filters style),
     layer_filters := dict_set st.layer_filters layer_id filters },
   "Added " ++ layer_id ++ " to map")

/-- `PlotlyMapHandler._remove_map_layer`: `dict.pop` without a default raises
`KeyError` on a missing key.  The result pairs the outcome (return string or
exception) with the state after the call. -/
def remove_map_layer (st : MapState) (layer_id : String) :
    Except PyErr String × MapState :=
  if dict_mem st.map_layers layer_id then
    let st1 : MapState := { st with map_layers := dict_erase st.map_layers layer_id }
    if dict_mem st1.layer_filters layer_id then
      (.ok ("Layer " ++ layer_id ++ " removed from the map"),
       { st1 with layer_filters := dict_erase st1.layer_filters layer_id })
    else (.error .keyError, st1)
  else (.error .keyError, st)

/-- A concrete table descriptor used to instantiate the map-state theorems. -/
def example_table : Table :=
  { name := "parcels", schema := "public", columns := ["BBL"], tile_url := "tiles" }

/-- A concrete map state holding one layer `x`, used to instantiate the
map-state theorems. -/
def example_map_state : MapState :=
  { map_layers := [("x", compose_layer example_table "red" none "line")],
    layer_filters := [("x", none)] }

/-! ## Document store startup and query join
(`DocumentStore.__init__`, `geo_assistant/doc_stores/_base.py` lines 38-66,
and the metadata join of `query`, lines 147-152)

The on-disk state is the id set of `index.bin` (if the file exists) and the
id-to-metadata map of `documents.json` (if it exists); metadata is an opaque
key-value list.  The embedding call and the float similarity distance of
`query` are external and omitted; the join of index hits back to metadata is
modelled. -/

/-- On-disk state of one store version directory. -/
structure DiskState where
  index_file : Option (List Int)
  documents_file : Option (List (Int × List (String × String)))
  deriving DecidableEq

/-- In-memory store state after `__init__`. -/
structure DocStoreState where
  index_ids : List Int
  documents : List (Int × List (String × String))
  deriving DecidableEq

/-- `DocumentStore.__init__` after the directory setup: each file is loaded
when present and replaced by a fresh empty value when absent; no further
inspection of either file takes place. -/
def document_store_init (d : DiskState) : DocStoreState :=
  { index_ids := d.index_file.getD [],
    documents := d.documents_file.getD [] }

/-- `self.documents.get(idx, {})` in `query`. -/
def documents_get (store : DocStoreState) (i : Int) : List (String × String) :=
  ((store.documents.find? (fun kv => kv.1 == i)).map (fun kv => kv.2)).getD []

/-- The metadata join of `query`: each index hit is joined back to its
metadata, an id missing from the metadata map yielding the empty dict (the
distance entry added afterwards is omitted). -/
def query_join (store : DocStoreState) (hits : List Int) :
    List (List (String × String)) :=
  hits.map (documents_get store)

/-! ## CPython string hashing and document ids
(`FieldDefinitionStore.add_pdf`, `geo_assistant/doc_stores/_field_definition_store.py`
line 128, and `SupplementalInfoStore.add_pdf`,
`geo_assistant/doc_stores/_supplemental_info_store.py` line 107)

Both stores compute `hash(table + str(pdf_path.name) + str(idx))` with the
Python builtin `hash`.  On CPython that is SipHash-1-3 over the bytes of the
string (for ASCII strings, the ASCII bytes), keyed by the 128-bit process-wide
hash secret, which is drawn at interpreter startup unless `PYTHONHASHSEED`
pins it.  The sha256-based `hash_doc` defined in the supplemental store is
never called.  SipHash-1-3 is modelled below over `Nat` with explicit 64-bit
masking, following CPython `Python/pyhash.c`. -/

/-- `2 ^ 64`. -/
def u64 : Nat := 18446744073709551616

/-- Truncation to 64 bits. -/
def mask64 (n : Nat) : Nat := n % u64

/-- 64-bit addition. -/
def add64 (a b : Nat) : Nat := mask64 (a + b)

/-- Bitwise xor (value-preserving below `2 ^ 64`). -/
def xor64 (a b : Nat) : Nat := a ^^^ b

/-- 64-bit left rotation. -/
def rotl64 (x r : Nat) : Nat := mask64 (x <<< r) ||| (x >>> (64 - r))

/-- The four 64-bit SipHash state words. -/
structure SipState where
  v0 : Nat
  v1 : Nat
  v2 : Nat
  v3 : Nat

/-- One SipHash round (`SINGLE_ROUND` of `pyhash.c`: two half rounds). -/
def sip_round (s : SipState) : SipState :=
  let v0 := add64 s.v0 s.v1
  let v2 := add64 s.v2 s.v3
  let v1 := xor64 (rotl64 s.v1 13) v0
  let v3 := xor64 (rotl64 s.v3 16) v2
  let v0 := rotl64 v0 32
  let v2b := add64 v2 v1
  let v0b := add64 v0 v3
  let v1b := xor64 (rotl64 v1 17) v2b
  let v3b := xor64 (rotl64 v3 21) v0b
  let v2c := rotl64 v2b 32
  ⟨v0b, v1b, v2c, v3b⟩

/-- Little-endian value of a byte list. -/
def le_bytes : List Nat → Nat
  | [] => 0
  | b :: bs => b + 256 * le_bytes bs

/-- The main SipHash loop: full 8-byte blocks are absorbed; the remaining tail
is returned. -/
def sip_blocks : SipState → List Nat → SipState × List Nat
  | s, b0 :: b1 :: b2 :: b3 :: b4 :: b5 :: b6 :: b7 :: rest =>
      let mi := le_bytes [b0, b1, b2, b3, b4, b5, b6, b7]
      let s1 := { s with v3 := xor64 s.v3 mi }
      let s2 := sip_round s1
      let s3 := { s2 with v0 := xor64 s2.v0 mi }
      sip_blocks s3 rest
  | s, rest => (s, rest)

/-- SipHash-1-3 of a byte string under the 128-bit key `(k0, k1)`. -/
def siphash13 (k0 k1 : Nat) (bytes : List Nat) : Nat :=
  let s0 : SipState :=
    ⟨xor64 k0 0x736f6d6570736575, xor64 k1 0x646f72616e646f6d,
     xor64 k0 0x6c7967656e657261, xor64 k1 0x7465646279746573⟩
  let r := sip_blocks s0 bytes
  let b := mask64 (bytes.length <<< 56) ||| le_bytes r.2
  let s2 := { r.1 with v3 := xor64 r.1.v3 b }
  let s3 := sip_round s2
  let s4 := { s3 with v0 := xor64 s3.v0 b }
  let s5 := { s4 with v2 := xor64 s4.v2 255 }
  let s6 := sip_round (sip_round (sip_round s5))
  xor64 (xor64 s6.v0 s6.v1) (xor64 s6.v2 s6.v3)

/-- The bytes CPython hashes for an ASCII string (its compact representation
is its ASCII bytes; every string these theorems hash is ASCII). -/
def ascii_bytes (s : String) : List Nat := s.toList.map Char.toNat

/-- Interpretation of a 64-bit word as a signed integer. -/
def to_signed64 (n : Nat) : Int :=
  if n < 9223372036854775808 then (n : Int) else (n : Int) - (u64 : Int)

/-- CPython `hash` of a string under the process hash secret `(k0, k1)`: the
empty string hashes to 0; otherwise the SipHash result is taken signed, with
`-1` remapped to `-2`. -/
def py_hash_str (k0 k1 : Nat) (s : String) : Int :=
  if s.isEmpty then 0
  else
    let h := to_signed64 (siphash13 k0 k1 (ascii_bytes s))
    if h = -1 then -2 else h

/-- The document id computed by both `add_pdf` implementations:
`hash(table + str(pdf_path.name) + str(idx))`, under the process hash secret
`(k0, k1)`. -/
def doc_id (k0 k1 : Nat) (table pdf_name : String) (idx : Nat) : Int :=
  py_hash_str k0 k1 (table ++ pdf_name ++ toString idx)

/-! ## Table registry lookups
(`TableRegistry.__getitem__`, `geo_assistant/table_registry.py` lines 221-294,
and `Table.filter`, lines 22-25)

A lookup threads the registry table list through every criterion so that the
state after the call is explicit in the model; `Table.filter` builds a
`model_copy` and assigns the restricted column list on the copy only. -/

/-- `Table.filter`: a copy whose columns are those of the table that occur in
the requested field list, in table order. -/
def table_filter (t : Table) (fields : List String) : Table :=
  { t with columns := t.columns.filter (fun col => fields.contains col) }

/-- One `(kind, value)` pair of a registry lookup. -/
inductive Criterion
  | schema (v : String)
  | table (v : String)
  | analysis (v : String)
  | fields (v : List String)
  deriving DecidableEq

/-- The criterion loop of `__getitem__` over the current candidate list: the
`schema` and `table` kinds filter, the `analysis` kind reads a `Table`
attribute that does not exist — its comprehension raises `AttributeError` at
the first candidate (an empty candidate list iterates zero times and
continues with an empty list) — and the `fields` kind replaces each candidate
by its filtered copy, dropping copies with no columns left.  The registry
list is returned alongside the outcome, so that any write to it would be
visible in the result. -/
def getitem_go (reg : List Table) (cands : List Table) :
    List Criterion → Except PyErr (List Table) × List Table
  | [] => (.ok cands, reg)
  | c :: cs =>
      match c with
      | .schema v => getitem_go reg (cands.filter (fun t => t.schema == v)) cs
      | .table v => getitem_go reg (cands.filter (fun t => t.name == v)) cs
      | .analysis _ =>
          if cands.isEmpty then getitem_go reg [] cs
          else (.error .attributeError, reg)
      | .fields fs =>
          getitem_go reg
            (cands.filterMap (fun t =>
              if truthyList (table_filter t fs).columns then some (table_filter t fs)
              else none)) cs

/-- `TableRegistry.__getitem__` on a normalised criterion sequence: the
candidates start as all registered tables. -/
def registry_getitem (reg : List Table) (conds : List Criterion) :
    Except PyErr (List Table) × List Table :=
  getitem_go reg reg conds

/-! ## Helper lemmas -/

theorem is_ok_mapE_iff {ε α β : Type} (f : α → Except ε β) (l : List α) :
    is_ok (mapE f l) = true ↔ ∀ a ∈ l, is_ok (f a) = true := by
  induction l with
  | nil => simp [mapE, is_ok]
  | cons a l ih =>
    cases hfa : f a with
    | error e => simp [mapE, hfa, is_ok]
    | ok b =>
      cases hl : mapE f l with
      | error e2 =>
        have hne : ¬(∀ x ∈ l, is_ok (f x) = true) := by
          intro hall
          have := ih.mpr hall
          rw [hl] at this
          simp [is_ok] at this
        simp only [mapE, hfa, hl]
        simp only [is_ok, Bool.false_eq_true, false_iff]
        intro hall
        exact hne fun x hx => hall x (List.mem_cons_of_mem a hx)
      | ok bs =>
        have hall : ∀ x ∈ l, is_ok (f x) = true := by
          apply ih.mp; rw [hl]; rfl
        simp only [mapE, hfa, hl]
        simp only [is_ok, true_iff]
        intro x hx
        rcases List.mem_cons.mp hx with h | h
        · rw [h, hfa]
        · exact hall x h

theorem is_ok_resolve_source (n b : String) (outs : List String)
    (v : SourceTable) :
    is_ok (resolve_source n b outs v) = source_ok outs v := by
  unfold resolve_source source_ok
  by_cases hc : truthyOptInt v.output_table_idx = true
  · rw [if_pos hc, if_pos hc]
    cases h : pyIndex outs (v.output_table_idx.getD 0) <;> simp [is_ok, h]
  · rw [if_neg hc, if_neg hc]
    cases h : v.source_table <;> simp [is_ok, h]

theorem is_ok_resolve_step (n b : String) (outs : List String)
    (step : PlanStep) :
    is_ok (resolve_step n b outs step) = true ↔
      ∀ src ∈ step_sources step, source_ok outs src = true := by
  have key : ∀ srcs : List SourceTable,
      is_ok (mapE (resolve_source n b outs) srcs) = true ↔
        ∀ src ∈ srcs, source_ok outs src = true := by
    intro srcs
    rw [is_ok_mapE_iff]
    constructor
    · intro h src hsrc
      rw [← is_ok_resolve_source n b]
      exact h src hsrc
    · intro h src hsrc
      rw [is_ok_resolve_source n b]
      exact h src hsrc
  cases step with
  | sql t srcs =>
    simp only [step_sources]
    rw [← key srcs]
    cases h : mapE (resolve_source n b outs) srcs <;>
      simp [resolve_step, h, is_ok]
  | reporting srcs =>
    simp only [step_sources]
    rw [← key srcs]
    cases h : mapE (resolve_source n b outs) srcs <;>
      simp [resolve_step, h, is_ok]

/-! ## C1: index references during plan validation -/

/-- C1 counterexample: a plan whose first step references the output of the
second step by index (a forward reference) passes `_fill_in_source_tables`
without error — the reference is resolved against the full per-plan
output-table list, so validation accepts it instead of rejecting it. -/
theorem forward_index_reference_accepted :
    fill_in_source_tables "an" "public"
        [.sql "a" [⟨some 1, some "t"⟩], .sql "b" []] =
      .ok [.sql "a" ["an.b"], .sql "b" []] := by
  rfl

/-- C1 (amended): `_fill_in_source_tables` performs no earlier-step check.
It accepts a plan exactly when every source-table field either carries a
truthy index (not `None`, not `0`) that is in range of the full output-table
list of the plan — forward and negative indices included — or otherwise
carries a table name.  Rejection happens only through `IndexError` (index out
of range) or `AttributeError` (no name supplied), never because an index
points forward. -/
theorem fill_in_source_tables_accepts_iff (analysis_name base_schema : String)
    (steps : List PlanStep) :
    is_ok (fill_in_source_tables analysis_name base_schema steps) = true ↔
      ∀ step ∈ steps, ∀ src ∈ step_sources step,
        source_ok (output_tables steps) src = true := by
  rw [fill_in_source_tables,
    is_ok_mapE_iff (resolve_step analysis_name base_schema (output_tables steps)) steps]
  constructor
  · intro h step hstep
    exact (is_ok_resolve_step analysis_name base_schema
      (output_tables steps) step).mp (h step hstep)
  · intro h step hstep
    exact (is_ok_resolve_step analysis_name base_schema
      (output_tables steps) step).mpr (h step hstep)

/-! ## C2: rewriting of a back-reference with index 0 -/

/-- C2: the validator tests the index with Python truthiness
(`if value.output_table_idx:`), so the valid back-reference index `0` is
treated as absent: the second step below references `outputs[0]` (the first
step, output table `a`) yet is rewritten to `public.parcels` from its
`source_table` instead of to `an.a` as the claim requires. -/
theorem index_zero_reference_resolved_by_name :
    fill_in_source_tables "an" "public"
        [.sql "a" [], .sql "b" [⟨some 0, some "parcels"⟩]] =
      .ok [.sql "a" [], .sql "b" ["public.parcels"]] ∧
    fill_in_source_tables "an" "public"
        [.sql "a" [], .sql "b" [⟨some 0, none⟩]] =
      .error .attributeError := by
  exact ⟨rfl, rfl⟩

/-! ## C3: cleanup after an analysis run -/

/-- C3: on the plan (SQL `step_a`; SQL `step_b`; SaveTable `step_b`) both
steps execute and create their tables, the final-tables set is `[step_b]`,
and the `finally` stage of `run_analysis` then drops exactly the final
tables: the SaveTable-retained `step_b` is destroyed and the intermediate
`step_a` survives — the inverse of the claimed cleanup. -/
theorem cleanup_drops_save_table_retained :
    (execute_created
        [.sqlStep "step_a" false, .sqlStep "step_b" false, .saveTable "step_b"]).1 =
      ["step_a", "step_b"] ∧
    final_tables
        [.sqlStep "step_a" false, .sqlStep "step_b" false, .saveTable "step_b"] =
      ["step_b"] ∧
    run_analysis_cleanup
        [.sqlStep "step_a" false, .sqlStep "step_b" false, .saveTable "step_b"] =
      ["step_a"] := by
  exact ⟨rfl, rfl, rfl⟩

/-! ## C4: SQL and attribute-query renderings of a handler filter -/

/-- C4 counterexample: for the `contains` operator on the value `a.b`,
`_to_sql` renders the POSIX-regex predicate `~` over the raw value while
`_to_cql` renders `LIKE` over the percent-wrapped value; on the row value
`axb` the regex matches (the dot matches any character) but the `LIKE`
pattern does not, so the two renderings denote different predicates. -/
theorem contains_filter_denotations_differ :
    sql_denotes ⟨"name", PyValue.str "a.b", FilterOp.contains⟩ (PyValue.str "axb") = true ∧
    cql_denotes ⟨"name", PyValue.str "a.b", FilterOp.contains⟩ (PyValue.str "axb") = false := by
  exact ⟨rfl, rfl⟩

/-- C4 (amended): for the six comparison operators (`contains` excluded) the
SQL predicate of `_to_sql` and the attribute-query predicate of `_to_cql`
denote the same predicate over every row value, and both renderers escape
string literals by doubling internal single quotes (their string-literal
formatting coincides). -/
theorem comparison_filters_denote_equally (f : GeoFilter) (row : PyValue)
    (s : String) (h : f.op ≠ FilterOp.contains) :
    sql_denotes f row = cql_denotes f row ∧
      cql_literal (PyValue.str s) = sql_literal (PyValue.str s) := by
  refine ⟨?_, rfl⟩
  obtain ⟨ffield, fvalue, fop⟩ := f
  cases fop <;> first | rfl | exact absurd rfl h

/-- Witness for the amended C4 theorem at a concrete comparison filter. -/
theorem comparison_filters_denote_equally_witness :
    sql_denotes ⟨"age", PyValue.int 30, FilterOp.greaterThan⟩ (PyValue.int 31) =
        cql_denotes ⟨"age", PyValue.int 30, FilterOp.greaterThan⟩ (PyValue.int 31) ∧
      cql_literal (PyValue.str "ab") = sql_literal (PyValue.str "ab") :=
  comparison_filters_denote_equally ⟨"age", PyValue.int 30, FilterOp.greaterThan⟩
    (PyValue.int 31) "ab" (by decide)

/-! ## C5: map-layer addition and removal -/

theorem replace_map_keys {β : Type} (k : String) (v : β) :
    ∀ d : List (String × β),
      (d.map (fun kv => if kv.1 == k then (k, v) else kv)).map Prod.fst =
        d.map Prod.fst
  | [] => rfl
  | kv :: d => by
    simp only [List.map_cons]
    by_cases hk : (kv.1 == k) = true
    · rw [if_pos hk, replace_map_keys k v d]
      have hkeq : kv.1 = k := by simpa using hk
      rw [hkeq]
    · rw [if_neg hk, replace_map_keys k v d]

theorem find_replace {β : Type} (k : String) (v : β) :
    ∀ d : List (String × β), d.any (fun kv => kv.1 == k) = true →
      (d.map (fun kv => if kv.1 == k then (k, v) else kv)).find?
          (fun kv => kv.1 == k) = some (k, v)
  | [], h => by simp at h
  | kv :: d, h => by
    simp only [List.map_cons]
    by_cases hk : (kv.1 == k) = true
    · rw [if_pos hk]
      exact List.find?_cons_of_pos _ (by simp)
    · rw [if_neg hk]
      have hkf : (kv.1 == k) = false := Bool.eq_false_iff.mpr hk
      rw [List.find?_cons, hkf]
      apply find_replace k v d
      simp only [List.any_cons, Bool.or_eq_true] at h
      rcases h with h | h
      · exact absurd h hk
      · exact h

theorem find_append_self {β : Type} (k : String) (v : β) :
    ∀ d : List (String × β), d.any (fun kv => kv.1 == k) = false →
      (d ++ [(k, v)]).find? (fun kv => kv.1 == k) = some (k, v)
  | [], _ => by
    simp only [List.nil_append]
    exact List.find?_cons_of_pos _ (by simp)
  | kv :: d, h => by
    have h2 : (kv.1 == k) = false ∧ d.any (fun kv => kv.1 == k) = false := by
      simpa using h
    rw [List.cons_append, List.find?_cons, h2.1]
    exact find_append_self k v d h2.2

theorem dict_find_dict_set {β : Type} (k : String) (v : β)
    (d : List (String × β)) : dict_find (dict_set d k v) k = some v := by
  unfold dict_find dict_set
  by_cases hmem : d.any (fun kv => kv.1 == k) = true
  · rw [if_pos hmem, find_replace k v d hmem]
    rfl
  · rw [if_neg hmem,
      find_append_self k v d (Bool.eq_false_iff.mpr hmem)]
    rfl

/-- C5 counterexample: removing a layer id that is not present does not
return normally — `dict.pop` raises `KeyError` (the state is left
unchanged). -/
theorem remove_missing_layer_raises_key_error :
    remove_map_layer ⟨[], []⟩ "layer1" =
      (.error .keyError, (⟨[], []⟩ : MapState)) := by
  rfl

/-- C5 (amended): adding a layer whose id already exists replaces the prior
layer spec in place — the key sequence and the layer count are unchanged and
the id now maps to the newly composed spec; removing a layer id that is not
present raises `KeyError` and leaves the map state (layer dict and per-layer
filters) unchanged. -/
theorem add_replaces_remove_missing_raises (st : MapState) (table : Table)
    (layer_id color : String) (filters : Option (List GeoFilter))
    (style : String) :
    (dict_mem st.map_layers layer_id = true →
      ((add_map_layer st table layer_id color filters style).1.map_layers.map Prod.fst =
          st.map_layers.map Prod.fst ∧
        (add_map_layer st table layer_id color filters style).1.map_layers.length =
          st.map_layers.length ∧
        dict_find (add_map_layer st table layer_id color filters style).1.map_layers
            layer_id = some (compose_layer table color filters style))) ∧
    (dict_mem st.map_layers layer_id = false →
      remove_map_layer st layer_id = (.error .keyError, st)) := by
  constructor
  · intro hmem
    have hkeys : (add_map_layer st table layer_id color filters style).1.map_layers.map
        Prod.fst = st.map_layers.map Prod.fst := by
      show (dict_set st.map_layers layer_id (compose_layer table color filters style)).map
          Prod.fst = st.map_layers.map Prod.fst
      unfold dict_set
      unfold dict_mem at hmem
      rw [if_pos hmem]
      exact replace_map_keys layer_id (compose_layer table color filters style) st.map_layers
    refine ⟨hkeys, ?_, ?_⟩
    · have := congrArg List.length hkeys
      simpa using this
    · exact dict_find_dict_set layer_id (compose_layer table color filters style)
        st.map_layers
  · intro hmem
    unfold remove_map_layer
    rw [if_neg (by rw [hmem]; exact Bool.false_ne_true)]

/-- Witness for the amended C5 theorem: replacing the existing layer `x` and
removing the absent layer `y` on a concrete map state. -/
theorem add_replaces_remove_missing_raises_witness :
    ((add_map_layer example_map_state example_table "x" "blue" none "fill").1.map_layers.map
        Prod.fst = example_map_state.map_layers.map Prod.fst ∧
      (add_map_layer example_map_state example_table "x" "blue" none "fill").1.map_layers.length =
        example_map_state.map_layers.length ∧
      dict_find (add_map_layer example_map_state example_table "x" "blue" none "fill").1.map_layers
          "x" = some (compose_layer example_table "blue" none "fill")) ∧
    remove_map_layer example_map_state "y" = (.error .keyError, example_map_state) :=
  ⟨(add_replaces_remove_missing_raises example_map_state example_table "x" "blue" none
      "fill").1 (by rfl),
   (add_replaces_remove_missing_raises example_map_state example_table "y" "blue" none
      "fill").2 (by rfl)⟩

/-! ## C6: document-store startup -/

/-- C6 counterexample: a disk state whose index holds id 1 while the metadata
map is empty survives `__init__` untouched — the store is not re-initialised
and afterwards the index id set and the metadata id set disagree. -/
theorem corrupted_store_not_reinitialised :
    (document_store_init ⟨some [1], some []⟩).index_ids = [1] ∧
    (document_store_init ⟨some [1], some []⟩).documents = [] := by
  exact ⟨rfl, rfl⟩

/-- C6 (amended): `__init__` loads whichever files exist verbatim and
performs no agreement check between the index id set and the metadata id
set; a query hit on an id that is absent from the metadata joins to the
empty metadata dict instead of triggering any re-initialisation. -/
theorem document_store_init_loads_files_verbatim (d : DiskState) (i : Int)
    (h : (d.documents_file.getD []).find? (fun kv => kv.1 == i) = none) :
    (document_store_init d).index_ids = d.index_file.getD [] ∧
    (document_store_init d).documents = d.documents_file.getD [] ∧
    query_join (document_store_init d) [i] = [[]] := by
  refine ⟨rfl, rfl, ?_⟩
  simp [query_join, documents_get, document_store_init, h]

/-- Witness for the amended C6 theorem at the concrete corrupted disk
state. -/
theorem document_store_init_loads_files_verbatim_witness :
    (document_store_init ⟨some [1], some []⟩).index_ids =
        ((⟨some [1], some []⟩ : DiskState).index_file.getD []) ∧
    (document_store_init ⟨some [1], some []⟩).documents =
        ((⟨some [1], some []⟩ : DiskState).documents_file.getD []) ∧
    query_join (document_store_init ⟨some [1], some []⟩) [1] = [[]] :=
  document_store_init_loads_files_verbatim ⟨some [1], some []⟩ 1 (by rfl)

/-! ## C7: document ids under the process hash secret -/

/-- C7: the document id is CPython `hash` of
`table + str(pdf_path.name) + str(idx)`, which depends on the process hash
secret: under secret `(0, 0)` (the `PYTHONHASHSEED=0` secret) and secret
`(0, 1)` the same document `(table=parcels, source=dict.pdf, ordinal=0)`
receives different ids, so the id is not a function of table, source and
ordinal alone and is not stable across independent process runs. -/
theorem doc_id_depends_on_hash_secret :
    doc_id 0 0 "parcels" "dict.pdf" 0 = 2556046601999658531 ∧
    doc_id 0 1 "parcels" "dict.pdf" 0 = -4642464494675840022 ∧
    doc_id 0 0 "parcels" "dict.pdf" 0 ≠ doc_id 0 1 "parcels" "dict.pdf" 0 := by
  exact ⟨rfl, rfl, by decide⟩

/-! ## C9: buffer-step validation -/

/-- C9: `_BufferStep` validation accepts a buffer distance of `0` and of
`-5` — no lower bound on the distance is enforced, although the field
documentation in the source states the distance must be positive. -/
theorem buffer_step_accepts_nonpositive_distance :
    validate_buffer_step "parcels" 0 "meters" =
        .ok { from_table := "parcels", buffer_distance := 0, buffer_unit := "meters" } ∧
    validate_buffer_step "parcels" (-5) "meters" =
        .ok { from_table := "parcels", buffer_distance := -5, buffer_unit := "meters" } ∧
    ((-5 : Rat) < 0 ∧ ¬((0 : Rat) > 0)) := by
  exact ⟨rfl, rfl, by norm_num, by norm_num⟩

/-! ## C8: the smart-query union -/

theorem foldl_step_flatten {α β : Type} (f : β → α → β) :
    ∀ (L : List (List α)) (acc : β),
      (L.flatten).foldl f acc = L.foldl (fun a l => l.foldl f a) acc
  | [], _ => rfl
  | l :: L, acc => by
    rw [List.flatten_cons, List.foldl_append, List.foldl_cons]
    exact foldl_step_flatten f L (l.foldl f acc)

theorem foldl_smart_union :
    ∀ (l : List Doc) (acc : List Doc),
      l.foldl smart_union_step acc =
        acc ++ first_occurrences
          (l.filter (fun e => !((acc.map Doc.name).contains e.name)))
  | [], acc => by simp [first_occurrences]
  | r :: rs, acc => by
    rw [List.foldl_cons, foldl_smart_union rs (smart_union_step acc r)]
    by_cases hmem : ((acc.map Doc.name).contains r.name) = true
    · have hstep : smart_union_step acc r = acc := by
        unfold smart_union_step
        rw [if_pos hmem]
      rw [hstep, List.filter_cons]
      have hdrop : (!((acc.map Doc.name).contains r.name)) = false := by
        rw [hmem]; rfl
      rw [hdrop]
      rfl
    · have hmemf : ((acc.map Doc.name).contains r.name) = false :=
        Bool.eq_false_iff.mpr hmem
      have hstep : smart_union_step acc r = acc ++ [r] := by
        unfold smart_union_step
        rw [if_neg hmem]
      have hpred : (fun e : Doc => !((((acc ++ [r]).map Doc.name)).contains e.name)) =
          (fun e : Doc => (e.name != r.name) &&
            !((acc.map Doc.name).contains e.name)) := by
        funext e
        simp only [List.map_append, List.map_cons, List.map_nil,
          List.contains_eq_any_beq, List.any_append, List.any_cons, List.any_nil,
          Bool.or_false, Bool.not_or, bne]
        exact Bool.and_comm _ _
      rw [hstep, hpred, ← List.filter_filter, List.filter_cons]
      have hkeep : (!((acc.map Doc.name).contains r.name)) = true := by
        rw [hmemf]; rfl
      rw [hkeep]
      have hfo : first_occurrences
          (r :: rs.filter (fun e => !((acc.map Doc.name).contains e.name))) =
          r :: first_occurrences
            ((rs.filter (fun e => !((acc.map Doc.name).contains e.name))).filter
              (fun e => e.name != r.name)) := by
        rw [first_occurrences]
      rw [if_pos rfl, hfo, List.append_assoc]
      rfl

theorem mem_of_mem_first_occurrences :
    ∀ (n : Nat) (l : List Doc), l.length ≤ n →
      ∀ d, d ∈ first_occurrences l → d ∈ l
  | _, [], _, d, hd => by simp [first_occurrences] at hd
  | 0, a :: l, h, _, _ => by simp at h
  | n + 1, a :: l, h, d, hd => by
    rw [first_occurrences] at hd
    rcases List.mem_cons.mp hd with h1 | h1
    · exact h1 ▸ List.mem_cons_self a l
    · have hlen : (l.filter (fun e => e.name != a.name)).length ≤ n :=
        le_trans (List.length_filter_le _ _) (Nat.le_of_succ_le_succ h)
      exact List.mem_cons_of_mem a
        (List.mem_of_mem_filter (mem_of_mem_first_occurrences n _ hlen d h1))

theorem first_occurrences_names_nodup :
    ∀ (n : Nat) (l : List Doc), l.length ≤ n →
      ((first_occurrences l).map Doc.name).Nodup
  | _, [], _ => by simp [first_occurrences]
  | 0, a :: l, h => by simp at h
  | n + 1, a :: l, h => by
    rw [first_occurrences]
    simp only [List.map_cons, List.nodup_cons]
    have hlen : (l.filter (fun e => e.name != a.name)).length ≤ n :=
      le_trans (List.length_filter_le _ _) (Nat.le_of_succ_le_succ h)
    constructor
    · intro hmem
      rcases List.mem_map.mp hmem with ⟨d, hd, hname⟩
      have hdmem := mem_of_mem_first_occurrences n _ hlen d hd
      have hne := (List.mem_filter.mp hdmem).2
      rw [hname] at hne
      simp at hne
    · exact first_occurrences_names_nodup n _ hlen

/-- C8: `smart_query` runs `query` once per expanded term, in term order, and
its result is exactly the first-seen union of the concatenated per-term
result lists: each document name survives only at the position of its first
occurrence across the term results, and the output names contain no
duplicate. -/
theorem smart_query_first_seen_union (q : String → List Doc)
    (terms : List String) :
    smart_query q terms = first_occurrences ((terms.map q).flatten) ∧
    ((smart_query q terms).map Doc.name).Nodup := by
  have h1 : smart_query q terms = ((terms.map q).flatten).foldl smart_union_step [] := by
    rw [smart_query, foldl_step_flatten, List.foldl_map]
  have htriv : (fun e : Doc => !((([] : List Doc).map Doc.name).contains e.name)) =
      fun _ => true := by
    funext e; rfl
  have h2 : ((terms.map q).flatten).foldl smart_union_step [] =
      first_occurrences ((terms.map q).flatten) := by
    rw [foldl_smart_union, htriv, List.filter_true, List.nil_append]
  rw [h1, h2]
  exact ⟨rfl, first_occurrences_names_nodup _ _ (le_refl _)⟩

/-! ## C10: registry lookups are pure reads -/

theorem getitem_go_registry_fixed :
    ∀ (cs : List Criterion) (reg cands : List Table),
      (getitem_go reg cands cs).2 = reg
  | [], _, _ => rfl
  | c :: cs, reg, cands => by
    cases c with
    | schema v => exact getitem_go_registry_fixed cs reg _
    | table v => exact getitem_go_registry_fixed cs reg _
    | analysis v =>
      show (if cands.isEmpty then getitem_go reg [] cs
        else (.error .attributeError, reg)).2 = reg
      split
      · exact getitem_go_registry_fixed cs reg []
      · rfl
    | fields fs => exact getitem_go_registry_fixed cs reg _

theorem filterMap_table_filter (fs : List String) :
    ∀ reg : List Table,
      reg.filterMap (fun t =>
        if truthyList (table_filter t fs).columns then some (table_filter t fs)
        else none) =
      (reg.map (fun t => table_filter t fs)).filter (fun t => truthyList t.columns)
  | [] => rfl
  | t :: reg => by
    cases h : truthyList (table_filter t fs).columns with
    | false =>
      simp only [List.filterMap_cons, List.map_cons, List.filter_cons]
      rw [h, filterMap_table_filter fs reg]
      rfl
    | true =>
      simp only [List.filterMap_cons, List.map_cons, List.filter_cons]
      rw [h, filterMap_table_filter fs reg]
      rfl

/-- C10: a registry lookup is a pure read — for every criterion sequence the
registry table list after `__getitem__` (threaded through the model) equals
the list before, and a `fields` criterion returns fresh filtered copies of
the registered tables (those with a nonempty restricted column list) rather
than modified registry entries. -/
theorem registry_getitem_is_pure (reg : List Table) (conds : List Criterion)
    (fs : List String) :
    (registry_getitem reg conds).2 = reg ∧
    (registry_getitem reg [Criterion.fields fs]).1 =
      .ok ((reg.map (fun t => table_filter t fs)).filter
        (fun t => truthyList t.columns)) := by
  constructor
  · exact getitem_go_registry_fixed conds reg reg
  · have h : (registry_getitem reg [Criterion.fields fs]).1 =
        .ok (reg.filterMap (fun t =>
          if truthyList (table_filter t fs).columns then some (table_filter t fs)
          else none)) := rfl
    rw [h, filterMap_table_filter fs reg]

end GeoAssistant
